import Mathlib

/-!
Shallow embedding of the fire-calculator time-series / projection engine.

Sources embedded:
- `src/lib/timeseries.ts` (concatenated into `src/lib/examples.ts`):
  the `TimeSeries` variant and `evaluate`.
- `src/lib/components.ts`: `totalByCategory`, `netCashFlow`, `aggregateByYear`.
- `src/lib/projection.ts`: two historical variants of `projectNetWorth`
  (the earlier one, embedded as `projectNetWorthV1`, applies returns to the
  prior balance only; the final one includes the year's investment
  contribution in the invested balance).

Numbers are embedded as rationals (the source uses JS numbers and only
exact decimal arithmetic is exercised by the claims); years are integers.
-/

/-- A segment of a composite series, generic in the series type so that the
nested inductive below goes through.  Field names follow the source:
`{ series, startYear, endYear }` with `endYear` written `// exclusive`. -/
structure SegmentOf (α : Type) where
  series : α
  startYear : ℤ
  endYear : ℤ
  deriving Repr

/-- `TimeSeries` from `timeseries.ts`: the closed variant
`ConstantSeries | LinearGrowthSeries | RatioGrowthSeries | CompositeSeries`. -/
inductive TimeSeries : Type where
  | constant (value : ℚ) : TimeSeries
  | linear (startValue yearlyIncrement : ℚ) : TimeSeries
  | ratioGrowth (startValue yearlyGrowthRate : ℚ) : TimeSeries
  | composite (segments : List (SegmentOf TimeSeries)) : TimeSeries
  deriving Repr

/-- A composite segment: `{ series: TimeSeries; startYear; endYear }`. -/
abbrev Segment := SegmentOf TimeSeries

mutual

/-- `evaluate(series, year, baseYear)` from `timeseries.ts`:
`elapsed = year - baseYear`; constant returns `value`; linear returns
`startValue + elapsed * yearlyIncrement`; ratio returns
`startValue * (1 + yearlyGrowthRate) ^ elapsed` (`Math.pow`, here `zpow`
since `elapsed` is an integer); composite scans its segments in order. -/
def evaluate : TimeSeries → ℤ → ℤ → ℚ
  | .constant v, _, _ => v
  | .linear s k, year, baseYear => s + ((year - baseYear : ℤ) : ℚ) * k
  | .ratioGrowth s r, year, baseYear => s * (1 + r) ^ (year - baseYear)
  | .composite segs, year, _ => evaluateSegments segs year

/-- The `for (const segment of series.segments)` loop body of the composite
case of `evaluate`: the first segment with
`year >= segment.startYear && year < segment.endYear` is evaluated with the
segment's own `startYear` as the base year; if none matches, `0`. -/
def evaluateSegments : List Segment → ℤ → ℚ
  | [], _ => 0
  | seg :: rest, year =>
    if seg.startYear ≤ year ∧ year < seg.endYear then
      evaluate seg.series year seg.startYear
    else
      evaluateSegments rest year

end

/-- `ComponentCategory` from `components.ts`:
`'income' | 'spending' | 'investment'`. -/
inductive ComponentCategory : Type where
  | income
  | spending
  | investment
  deriving Repr, DecidableEq

/-- `FinancialComponent` from `components.ts`. -/
structure FinancialComponent where
  name : String
  category : ComponentCategory
  series : TimeSeries
  deriving Repr

/-- `FinancialPlan` from `components.ts`: `{ components, baseYear }`. -/
structure FinancialPlan where
  components : List FinancialComponent
  baseYear : ℤ
  deriving Repr

/-- `totalByCategory(plan, category, year)` from `components.ts`:
`plan.components.filter(c => c.category === category)
  .reduce((sum, c) => sum + evaluate(c.series, year, plan.baseYear), 0)`. -/
def totalByCategory (plan : FinancialPlan) (category : ComponentCategory)
    (year : ℤ) : ℚ :=
  (plan.components.filter fun c => c.category = category).foldl
    (fun sum c => sum + evaluate c.series year plan.baseYear) 0

/-- `netCashFlow(plan, year)` from `components.ts`: income total minus
spending total (investment contributions are separate). -/
def netCashFlow (plan : FinancialPlan) (year : ℤ) : ℚ :=
  let income := totalByCategory plan .income year
  let spending := totalByCategory plan .spending year
  income - spending

/-- `YearlyBreakdown` from `components.ts`. -/
structure YearlyBreakdown where
  year : ℤ
  income : ℚ
  spending : ℚ
  investment : ℚ
  netCashFlow : ℚ
  deriving Repr

/-- The body of the `for (let year = startYear; year < endYear; year++)`
loop of `aggregateByYear`, with the remaining iteration count made
explicit as fuel (the loop runs `(endYear - startYear).toNat` times). -/
def aggregateLoop (plan : FinancialPlan) : ℤ → ℕ → List YearlyBreakdown
  | _, 0 => []
  | year, n + 1 =>
    let income := totalByCategory plan .income year
    let spending := totalByCategory plan .spending year
    let investment := totalByCategory plan .investment year
    ⟨year, income, spending, investment, income - spending⟩ ::
      aggregateLoop plan (year + 1) n

/-- `aggregateByYear(plan, startYear, endYear)` from `components.ts`:
one `YearlyBreakdown` per year of `[startYear, endYear)`. -/
def aggregateByYear (plan : FinancialPlan) (startYear endYear : ℤ) :
    List YearlyBreakdown :=
  aggregateLoop plan startYear (endYear - startYear).toNat

/-- `ProjectionParams` from `projection.ts` (shared by both variants). -/
structure ProjectionParams where
  plan : FinancialPlan
  initialNetWorth : ℚ
  startYear : ℤ
  endYear : ℤ
  investmentReturnRate : ℚ
  deriving Repr

/-- `YearlyProjection` of the final `projectNetWorth` variant
(`projection.ts` lines 84-90): `{year, income, spending, investment,
netWorth}`. -/
structure YearlyProjection where
  year : ℤ
  income : ℚ
  spending : ℚ
  investment : ℚ
  netWorth : ℚ
  deriving Repr

/-- `YearlyProjection` of the earlier `projectNetWorth` variant
(`projection.ts` lines 17-23): `{year, income, spending,
investmentReturns, netWorth}`. -/
structure YearlyProjectionV1 where
  year : ℤ
  income : ℚ
  spending : ℚ
  investmentReturns : ℚ
  netWorth : ℚ
  deriving Repr

/-- Loop body of the final `projectNetWorth` (`projection.ts` lines
103-135), with the running `netWorth` threaded and the remaining
iteration count explicit: contributions join the invested balance before
returns, remaining cash flow is added after. -/
def projectLoop (plan : FinancialPlan) (investmentReturnRate : ℚ) :
    ℤ → ℚ → ℕ → List YearlyProjection
  | _, _, 0 => []
  | year, netWorth, n + 1 =>
    let income := totalByCategory plan .income year
    let spending := totalByCategory plan .spending year
    let investment := totalByCategory plan .investment year
    let investedAmount := netWorth + investment
    let afterReturns := investedAmount * (1 + investmentReturnRate)
    let remainingCashFlow := income - spending - investment
    let newNetWorth := afterReturns + remainingCashFlow
    ⟨year, income, spending, investment, newNetWorth⟩ ::
      projectLoop plan investmentReturnRate (year + 1) newNetWorth n

/-- Final `projectNetWorth(params)` (`projection.ts` lines 103-135). -/
def projectNetWorth (params : ProjectionParams) : List YearlyProjection :=
  projectLoop params.plan params.investmentReturnRate params.startYear
    params.initialNetWorth (params.endYear - params.startYear).toNat

/-- Loop body of the earlier `projectNetWorth` variant (`projection.ts`
lines 36-66): returns apply to the prior balance only, then net cash flow
(income minus spending) is added; the investment category is not read. -/
def projectLoopV1 (plan : FinancialPlan) (investmentReturnRate : ℚ) :
    ℤ → ℚ → ℕ → List YearlyProjectionV1
  | _, _, 0 => []
  | year, netWorth, n + 1 =>
    let income := totalByCategory plan .income year
    let spending := totalByCategory plan .spending year
    let investmentReturns := netWorth * investmentReturnRate
    let afterReturns := netWorth + investmentReturns
    let flow := income - spending
    let newNetWorth := afterReturns + flow
    ⟨year, income, spending, investmentReturns, newNetWorth⟩ ::
      projectLoopV1 plan investmentReturnRate (year + 1) newNetWorth n

/-- Earlier `projectNetWorth` variant (`projection.ts` lines 36-66). -/
def projectNetWorthV1 (params : ProjectionParams) :
    List YearlyProjectionV1 :=
  projectLoopV1 params.plan params.investmentReturnRate params.startYear
    params.initialNetWorth (params.endYear - params.startYear).toNat

/-- The composite series of the spec's composite-segment-selection example:
`Composite([{Constant(80000),2025,2029},{Constant(120000),2030,2040}])`.
The same series appears in `timeseries.test.ts` ("returns value from
correct segment"). -/
def exampleComposite : TimeSeries :=
  .composite [⟨.constant 80000, 2025, 2029⟩, ⟨.constant 120000, 2030, 2040⟩]

/-- The plan of the end-to-end investment test (`projection.test.ts`,
"handles investment contributions with returns"): income 100000,
spending 50000, investment 20000, base year 2025. -/
def investmentTestPlan : FinancialPlan :=
  ⟨[⟨"Salary", .income, .constant 100000⟩,
    ⟨"Expenses", .spending, .constant 50000⟩,
    ⟨"401k", .investment, .constant 20000⟩], 2025⟩

/-- The Salary series of the bundled `careerChange` example
(`examples.ts` lines 101-108): its middle segment is written
`{ startYear: 2030, endYear: 2030 }` with the comment "just 2030". -/
def careerChangeSalary : TimeSeries :=
  .composite [⟨.ratioGrowth 130000 (2/100), 2025, 2029⟩,
              ⟨.constant 20000, 2030, 2030⟩,
              ⟨.ratioGrowth 80000 (5/100), 2031, 2050⟩]

/-- `careerChangeSalary` with the degenerate gap-year segment removed. -/
def careerChangeSalaryActive : TimeSeries :=
  .composite [⟨.ratioGrowth 130000 (2/100), 2025, 2029⟩,
              ⟨.ratioGrowth 80000 (5/100), 2031, 2050⟩]

/-- A one-income plan used to instantiate theorems with hypotheses. -/
def incomeOnlyPlan : FinancialPlan :=
  ⟨[⟨"Salary", .income, .constant 100⟩], 2025⟩

/-!  Helper lemmas shared by the claim theorems.  -/

theorem foldl_add_eq_add_sum {α : Type} (f : α → ℚ) :
    ∀ (l : List α) (a : ℚ),
      l.foldl (fun sum c => sum + f c) a = a + (l.map f).sum := by
  intro l
  induction l with
  | nil => intro a; simp
  | cons x xs ih =>
    intro a
    simp [List.foldl_cons, ih, List.sum_cons]
    ring

theorem totalByCategory_eq_sum (plan : FinancialPlan)
    (category : ComponentCategory) (year : ℤ) :
    totalByCategory plan category year =
      ((plan.components.filter fun c => c.category = category).map
        (fun c => evaluate c.series year plan.baseYear)).sum := by
  simp [totalByCategory, foldl_add_eq_add_sum]

theorem totalByCategory_append_of_ne (components : List FinancialComponent)
    (baseYear : ℤ) (c : FinancialComponent) (category : ComponentCategory)
    (h : c.category ≠ category) (year : ℤ) :
    totalByCategory ⟨components ++ [c], baseYear⟩ category year =
      totalByCategory ⟨components, baseYear⟩ category year := by
  simp [totalByCategory, List.filter_append, List.filter_cons, h]

theorem evaluateSegments_eq_find (year : ℤ) :
    ∀ segs : List Segment,
      evaluateSegments segs year =
        (segs.find? fun sg =>
            decide (sg.startYear ≤ year ∧ year < sg.endYear)).elim 0
          (fun sg => evaluate sg.series year sg.startYear) := by
  intro segs
  induction segs with
  | nil => simp [evaluateSegments]
  | cons sg rest ih =>
    by_cases h : sg.startYear ≤ year ∧ year < sg.endYear
    · rw [evaluateSegments, if_pos h,
        List.find?_cons_of_pos _ (by simp only [decide_eq_true_eq]; exact h)]
      rfl
    · rw [evaluateSegments, if_neg h,
        List.find?_cons_of_neg _ (by simp only [decide_eq_true_eq]; exact h),
        ih]

theorem evaluateSegments_filter_active (year : ℤ) :
    ∀ segs : List Segment,
      evaluateSegments
          (segs.filter fun sg => decide (sg.startYear < sg.endYear)) year =
        evaluateSegments segs year := by
  intro segs
  induction segs with
  | nil => simp
  | cons sg rest ih =>
    by_cases h : sg.startYear < sg.endYear
    · simp only [List.filter_cons, decide_eq_true_eq, if_pos h]
      rw [evaluateSegments, evaluateSegments, ih]
    · have hsel : ¬(sg.startYear ≤ year ∧ year < sg.endYear) := by omega
      simp only [List.filter_cons, decide_eq_true_eq, if_neg h]
      rw [evaluateSegments, if_neg hsel, ih]

theorem range_map_shift (year : ℤ) (m : ℕ) :
    (List.range (m + 1)).map (fun (i : ℕ) => year + (i : ℤ)) =
      year :: (List.range m).map (fun (i : ℕ) => (year + 1) + (i : ℤ)) := by
  rw [List.range_succ_eq_map, List.map_cons, List.map_map]
  refine congrArg₂ List.cons (by simp) ?_
  refine congrArg (fun f => (List.range m).map f) (funext fun i => ?_)
  show year + ((i + 1 : ℕ) : ℤ) = (year + 1) + (i : ℤ)
  push_cast
  ring

theorem aggregateLoop_map_year (plan : FinancialPlan) :
    ∀ (n : ℕ) (year : ℤ),
      (aggregateLoop plan year n).map (fun r => r.year) =
        (List.range n).map (fun (i : ℕ) => year + (i : ℤ)) := by
  intro n
  induction n with
  | zero => intro year; simp [aggregateLoop]
  | succ m ih =>
    intro year
    rw [range_map_shift]
    simp only [aggregateLoop, List.map_cons, ih]

theorem projectLoop_map_year (plan : FinancialPlan) (rate : ℚ) :
    ∀ (n : ℕ) (year : ℤ) (netWorth : ℚ),
      (projectLoop plan rate year netWorth n).map (fun r => r.year) =
        (List.range n).map (fun (i : ℕ) => year + (i : ℤ)) := by
  intro n
  induction n with
  | zero => intro year netWorth; simp [projectLoop]
  | succ m ih =>
    intro year netWorth
    rw [range_map_shift]
    simp only [projectLoop, List.map_cons, ih]

theorem projectLoop_agree (plan : FinancialPlan) (rate : ℚ) :
    ∀ (n : ℕ) (year : ℤ) (netWorth : ℚ),
      (∀ i : ℕ, i < n →
        totalByCategory plan .investment (year + i) = 0) →
      (projectLoopV1 plan rate year netWorth n).map
          (fun r => (r.year, r.netWorth)) =
        (projectLoop plan rate year netWorth n).map
          (fun r => (r.year, r.netWorth)) := by
  intro n
  induction n with
  | zero => intro year netWorth _; simp [projectLoop, projectLoopV1]
  | succ m ih =>
    intro year netWorth h
    have h0 : totalByCategory plan .investment year = 0 := by
      have := h 0 (Nat.succ_pos m)
      simpa using this
    rw [projectLoopV1, projectLoop]
    simp only [List.map_cons, h0]
    refine congrArg₂ _ (by ring_nf) ?_
    have hnw :
        netWorth + netWorth * rate +
            (totalByCategory plan .income year -
              totalByCategory plan .spending year) =
          (netWorth + 0) * (1 + rate) +
            (totalByCategory plan .income year -
              totalByCategory plan .spending year - 0) := by
      ring
    rw [hnw]
    exact ih (year + 1) _ fun i hi => by
      have := h (i + 1) (by omega)
      rw [show year + 1 + (i : ℤ) = year + ((i + 1 : ℕ) : ℤ) by push_cast; ring]
      exact this

/-- C1: the spec's composite-selection example expects `evaluate` of
`Composite([{Constant(80000),2025,2029},{Constant(120000),2030,2040}])`
to give 80000 at 2029 (as `timeseries.test.ts` also asserts); the code's
segment test `year < segment.endYear` makes 2029 fall outside the first
segment, so the code returns 0 there, while 2030 gives 120000 and a year
strictly between one segment's endYear and the next's startYear (2029 for
segments ending 2028 and starting 2030) gives 0 as claimed. -/
theorem C1_composite_boundary_code_divergence :
    evaluate exampleComposite 2029 2025 = 0 ∧
    evaluate exampleComposite 2030 2025 = 120000 ∧
    evaluate (.composite [⟨.constant 80000, 2025, 2028⟩,
      ⟨.constant 120000, 2030, 2040⟩]) 2029 2025 = 0 := by
  refine ⟨by norm_num [exampleComposite, evaluate, evaluateSegments],
    by norm_num [exampleComposite, evaluate, evaluateSegments],
    by norm_num [evaluate, evaluateSegments]⟩

/-- C2: one iteration of the final `projectNetWorth` from net worth `w`
yields `(w + investment) * (1 + r) + (income - spending - investment)`,
and the end-to-end one-year run with Income 100000, Spending 50000,
Investment 20000, initial net worth 0 and rate 0.10 emits 52000. -/
theorem C2_yearly_update (plan : FinancialPlan) (r w : ℚ) (y : ℤ) :
    projectNetWorth ⟨plan, w, y, y + 1, r⟩ =
      [⟨y, totalByCategory plan .income y, totalByCategory plan .spending y,
        totalByCategory plan .investment y,
        (w + totalByCategory plan .investment y) * (1 + r) +
          (totalByCategory plan .income y - totalByCategory plan .spending y -
            totalByCategory plan .investment y)⟩] ∧
    (projectNetWorth ⟨investmentTestPlan, 0, 2025, 2026, 10/100⟩).map
      (fun rec => rec.netWorth) = [52000] := by
  constructor
  · have h1 : ((y + 1 : ℤ) - y).toNat = 1 := by omega
    rw [projectNetWorth]
    simp only [h1]
    rw [projectLoop, projectLoop]
  · norm_num +decide [projectNetWorth, investmentTestPlan, projectLoop,
      totalByCategory, List.filter, evaluate]

/-- C3: the composite case of `evaluate` returns the recursive evaluation
of the first segment (in list order) whose half-open interval
`startYear ≤ year < endYear` contains the year, rebased to that segment's
own `startYear` (not the outer base year), and `0` when no segment
matches. -/
theorem C3_composite_first_segment_wins
    (segs : List Segment) (year baseYear : ℤ) :
    evaluate (.composite segs) year baseYear =
      (segs.find? fun sg =>
          decide (sg.startYear ≤ year ∧ year < sg.endYear)).elim 0
        (fun sg => evaluate sg.series year sg.startYear) := by
  rw [show evaluate (.composite segs) year baseYear
      = evaluateSegments segs year from rfl]
  exact evaluateSegments_eq_find year segs

/-- C4: `evaluate(Ratio{s,r}, base+n, base) = s * (1+r)^n` for every
integer `n` (including negative `n`, via zpow), and `Ratio{100000, 0.10}`
at elapsed 5 gives 161051. -/
theorem C4_ratio_compounding (s r : ℚ) (base n : ℤ) :
    evaluate (.ratioGrowth s r) (base + n) base = s * (1 + r) ^ n ∧
    evaluate (.ratioGrowth 100000 (10/100)) 2030 2025 = 161051 := by
  constructor
  · simp [evaluate]
  · norm_num [evaluate]

/-- C5: `totalByCategory` sums `evaluate(c.series, year, plan.baseYear)`
over exactly the components of the requested category, so appending an
investment component changes neither the income nor the spending total. -/
theorem C5_category_independence (plan : FinancialPlan) (y : ℤ)
    (cat : ComponentCategory) (c : FinancialComponent)
    (hc : c.category = ComponentCategory.investment) :
    totalByCategory ⟨plan.components ++ [c], plan.baseYear⟩ .income y =
        totalByCategory plan .income y ∧
    totalByCategory ⟨plan.components ++ [c], plan.baseYear⟩ .spending y =
        totalByCategory plan .spending y ∧
    totalByCategory plan cat y =
      ((plan.components.filter fun co => co.category = cat).map
        (fun co => evaluate co.series y plan.baseYear)).sum := by
  refine ⟨?_, ?_, totalByCategory_eq_sum plan cat y⟩
  · exact totalByCategory_append_of_ne plan.components plan.baseYear c
      .income (by simp [hc]) y
  · exact totalByCategory_append_of_ne plan.components plan.baseYear c
      .spending (by simp [hc]) y

/-- Witness for C5 at a concrete plan, year, category and component. -/
theorem C5_witness :
    ((⟨"Extra", .investment, .constant 5⟩ : FinancialComponent).category =
      ComponentCategory.investment) ∧
    (totalByCategory
        ⟨investmentTestPlan.components ++
          [⟨"Extra", .investment, .constant 5⟩],
          investmentTestPlan.baseYear⟩ .income 2025 =
        totalByCategory investmentTestPlan .income 2025 ∧
    totalByCategory
        ⟨investmentTestPlan.components ++
          [⟨"Extra", .investment, .constant 5⟩],
          investmentTestPlan.baseYear⟩ .spending 2025 =
        totalByCategory investmentTestPlan .spending 2025 ∧
    totalByCategory investmentTestPlan .income 2025 =
      ((investmentTestPlan.components.filter
          fun co => co.category = ComponentCategory.income).map
        (fun co => evaluate co.series 2025 investmentTestPlan.baseYear)).sum) :=
  ⟨rfl, C5_category_independence investmentTestPlan 2025 .income
    ⟨"Extra", .investment, .constant 5⟩ rfl⟩

/-- C6: `aggregateByYear` gives the empty list on an empty or inverted
range and exactly `n` records, with ascending years `y0, y0+1, ...,
y0+n-1`, on the range `[y0, y0+n)`. -/
theorem C6_aggregate_range (plan : FinancialPlan) (y y0 s e : ℤ) (n : ℕ)
    (h : e ≤ s) :
    aggregateByYear plan y y = [] ∧
    aggregateByYear plan s e = [] ∧
    (aggregateByYear plan y0 (y0 + n)).length = n ∧
    (aggregateByYear plan y0 (y0 + n)).map (fun r => r.year) =
      (List.range n).map (fun (i : ℕ) => y0 + (i : ℤ)) := by
  have hn : ((y0 + n : ℤ) - y0).toNat = n := by omega
  refine ⟨?_, ?_, ?_, ?_⟩
  · rw [aggregateByYear]
    simp [aggregateLoop]
  · rw [aggregateByYear, show ((e : ℤ) - s).toNat = 0 by omega]
    rfl
  · have := congrArg List.length
      (aggregateLoop_map_year plan ((y0 + n - y0).toNat) y0)
    rw [aggregateByYear]
    simpa using this
  · rw [aggregateByYear, hn]
    exact aggregateLoop_map_year plan n y0

/-- Witness for C6 at a concrete plan and concrete year ranges. -/
theorem C6_witness :
    ((2024 : ℤ) ≤ 2025) ∧
    (aggregateByYear incomeOnlyPlan 2030 2030 = [] ∧
    aggregateByYear incomeOnlyPlan 2025 2024 = [] ∧
    (aggregateByYear incomeOnlyPlan 2026 (2026 + (3 : ℕ))).length = 3 ∧
    (aggregateByYear incomeOnlyPlan 2026 (2026 + (3 : ℕ))).map
        (fun r => r.year) =
      (List.range 3).map (fun (i : ℕ) => 2026 + (i : ℤ))) :=
  ⟨by norm_num, C6_aggregate_range incomeOnlyPlan 2030 2026 2025 2024 3
    (by norm_num)⟩

/-- C7: `projectNetWorth` terminates with exactly
`max 0 (endYear - startYear)` records, record `i` carrying year
`startYear + i`, so output years ascend and the loop is bounded. -/
theorem C7_projection_length (params : ProjectionParams) :
    ((projectNetWorth params).length : ℤ) =
      max 0 (params.endYear - params.startYear) ∧
    (projectNetWorth params).map (fun r => r.year) =
      (List.range (params.endYear - params.startYear).toNat).map
        (fun (i : ℕ) => params.startYear + (i : ℤ)) := by
  constructor
  · have := congrArg List.length (projectLoop_map_year params.plan
      params.investmentReturnRate
      ((params.endYear - params.startYear).toNat) params.startYear
      params.initialNetWorth)
    rw [projectNetWorth]
    simp only [List.length_map, List.length_range] at this
    rw [this]
    omega
  · rw [projectNetWorth]
    exact projectLoop_map_year _ _ _ _ _

/-- C8: `netCashFlow` is the income total minus the spending total, and
appending an investment component leaves it unchanged (equivalently,
removing one never changes it). -/
theorem C8_netCashFlow_excludes_investment (plan : FinancialPlan) (y : ℤ)
    (c : FinancialComponent)
    (hc : c.category = ComponentCategory.investment) :
    netCashFlow plan y =
      totalByCategory plan .income y - totalByCategory plan .spending y ∧
    netCashFlow ⟨plan.components ++ [c], plan.baseYear⟩ y =
      netCashFlow plan y := by
  refine ⟨rfl, ?_⟩
  rw [netCashFlow, netCashFlow,
    totalByCategory_append_of_ne plan.components plan.baseYear c .income
      (by simp [hc]) y,
    totalByCategory_append_of_ne plan.components plan.baseYear c .spending
      (by simp [hc]) y]

/-- Witness for C8 at a concrete plan, year and investment component. -/
theorem C8_witness :
    ((⟨"Extra", .investment, .constant 7⟩ : FinancialComponent).category =
      ComponentCategory.investment) ∧
    (netCashFlow incomeOnlyPlan 2025 =
      totalByCategory incomeOnlyPlan .income 2025 -
        totalByCategory incomeOnlyPlan .spending 2025 ∧
    netCashFlow
        ⟨incomeOnlyPlan.components ++ [⟨"Extra", .investment, .constant 7⟩],
          incomeOnlyPlan.baseYear⟩ 2025 =
      netCashFlow incomeOnlyPlan 2025) :=
  ⟨rfl, C8_netCashFlow_excludes_investment incomeOnlyPlan 2025
    ⟨"Extra", .investment, .constant 7⟩ rfl⟩

/-- C9: a segment with `endYear ≤ startYear` is never selected: dropping
all such segments never changes `evaluate`; a one-segment composite
`{startYear: y, endYear: y}` evaluates to 0 even at `y` itself; and the
`careerChange` Salary series equals the same series with its
`{2030, 2030}` gap-year segment removed, at every year and base year. -/
theorem C9_degenerate_segments_contribute_nothing :
    (∀ (segs : List Segment) (year baseYear : ℤ),
      evaluate (.composite segs) year baseYear =
        evaluate (.composite
          (segs.filter fun sg => decide (sg.startYear < sg.endYear)))
          year baseYear) ∧
    (∀ (s : TimeSeries) (y b : ℤ),
      evaluate (.composite [⟨s, y, y⟩]) y b = 0) ∧
    (∀ (year baseYear : ℤ),
      evaluate careerChangeSalary year baseYear =
        evaluate careerChangeSalaryActive year baseYear) := by
  have hfilter : ∀ (segs : List Segment) (year baseYear : ℤ),
      evaluate (.composite segs) year baseYear =
        evaluate (.composite
          (segs.filter fun sg => decide (sg.startYear < sg.endYear)))
          year baseYear := by
    intro segs year baseYear
    rw [show evaluate (.composite segs) year baseYear
        = evaluateSegments segs year from rfl,
      show ∀ l, evaluate (.composite l) year baseYear
        = evaluateSegments l year from fun _ => rfl,
      evaluateSegments_filter_active]
  refine ⟨hfilter, ?_, ?_⟩
  · intro s y b
    have hsel : ¬(y ≤ y ∧ y < y) := by omega
    rw [show evaluate (.composite [⟨s, y, y⟩]) y b
        = evaluateSegments [⟨s, y, y⟩] y from rfl,
      evaluateSegments, if_neg hsel, evaluateSegments]
  · intro year baseYear
    rw [show careerChangeSalary =
        .composite [⟨.ratioGrowth 130000 (2/100), 2025, 2029⟩,
          ⟨.constant 20000, 2030, 2030⟩,
          ⟨.ratioGrowth 80000 (5/100), 2031, 2050⟩] from rfl,
      hfilter _ year baseYear]
    rfl

/-- C10: when the investment category totals 0 at every simulated year,
the earlier `projectNetWorth` variant (returns on the prior balance only,
then income minus spending) and the final variant (contribution joins the
invested balance, remaining cash added after) emit the same year and
net-worth sequences. -/
theorem C10_variants_agree_without_investment (plan : FinancialPlan)
    (w r : ℚ) (s e : ℤ)
    (h : ∀ y : ℤ, s ≤ y → y < e →
      totalByCategory plan .investment y = 0) :
    (projectNetWorthV1 ⟨plan, w, s, e, r⟩).map
        (fun rec => (rec.year, rec.netWorth)) =
      (projectNetWorth ⟨plan, w, s, e, r⟩).map
        (fun rec => (rec.year, rec.netWorth)) := by
  rw [projectNetWorthV1, projectNetWorth]
  exact projectLoop_agree plan r ((e - s).toNat) s w fun i hi => by
    have hy1 : s ≤ s + (i : ℤ) := by omega
    have hy2 : s + (i : ℤ) < e := by omega
    exact h _ hy1 hy2

/-- Witness for C10 at a concrete investment-free plan and range. -/
theorem C10_witness :
    (∀ y : ℤ, (2025 : ℤ) ≤ y → y < 2027 →
      totalByCategory incomeOnlyPlan .investment y = 0) ∧
    (projectNetWorthV1 ⟨incomeOnlyPlan, 0, 2025, 2027, 1/2⟩).map
        (fun rec => (rec.year, rec.netWorth)) =
      (projectNetWorth ⟨incomeOnlyPlan, 0, 2025, 2027, 1/2⟩).map
        (fun rec => (rec.year, rec.netWorth)) :=
  ⟨fun _ _ _ => rfl,
    C10_variants_agree_without_investment incomeOnlyPlan 0 (1/2) 2025 2027
      fun _ _ _ => rfl⟩
